import Mathlib

/-!
Verification of the Simple Form API repository: the details CRUD endpoints
of `main.py` and the authentication / session-management subsystem described
in the specification (whose handlers are exercised by `tests/test_main.py`).
-/

namespace FormApi

/-- A stored record in `data_store` (`main.py`): id, name, email, message,
created_at, as produced by `post_details`. -/
structure Detail where
  id : String
  name : String
  email : String
  message : String
  created_at : String
deriving DecidableEq, Repr

/-- The request body accepted by the update endpoint (`DetailItem` in
`main.py`): name, email, message. -/
structure DetailItem where
  name : String
  email : String
  message : String
deriving DecidableEq, Repr

/-- Endpoint `GET /getDetails/{detail_id}` (`get_detail_by_id` in `main.py`): scan
`data_store` in order, return the first item whose id matches; otherwise
raise 404 with detail "Detail not found". -/
def get_detail_by_id (data_store : List Detail) (detail_id : String) :
    Except String Detail :=
  match data_store.find? (fun item => item.id = detail_id) with
  | some item => .ok item
  | none => .error "Detail not found"

/-- Endpoint `PUT /updateDetails/{detail_id}` (`update_detail` in `main.py`): scan
`data_store` in order; on the first item whose id matches, overwrite its
name, email and message fields in place (id and created_at preserved) and
return the updated record; if no item matches, raise 404 with detail
"Detail not found" and leave the store as it was. -/
def update_detail (data_store : List Detail) (detail_id : String)
    (detail : DetailItem) : Except String Detail × List Detail :=
  match data_store with
  | [] => (.error "Detail not found", [])
  | item :: rest =>
    if item.id = detail_id then
      let upd : Detail :=
        { id := item.id, name := detail.name, email := detail.email,
          message := detail.message, created_at := item.created_at }
      (.ok upd, upd :: rest)
    else
      let r := update_detail rest detail_id detail
      (r.1, item :: r.2)

/-- Removal of the first item with a matching id, as performed by the loop
with `data_store.pop(i)` in `delete_detail` (`main.py`); `none` when no item
matches. -/
def removeFirst (data_store : List Detail) (detail_id : String) :
    Option (List Detail) :=
  match data_store with
  | [] => none
  | item :: rest =>
    if item.id = detail_id then some rest
    else (removeFirst rest detail_id).map (item :: ·)

/-- The success body of `delete_detail`: message, deleted_id,
remaining_count. -/
structure DeleteResponse where
  message : String
  deleted_id : String
  remaining_count : Nat
deriving DecidableEq, Repr

/-- Endpoint `DELETE /deleteDetails/{detail_id}` (`delete_detail` in `main.py`): pop
the first item whose id matches and report the remaining count; otherwise
raise 404 with detail "Detail not found". -/
def delete_detail (data_store : List Detail) (detail_id : String) :
    Except String DeleteResponse × List Detail :=
  match removeFirst data_store detail_id with
  | none => (.error "Detail not found", data_store)
  | some rest =>
    (.ok { message := "Detail deleted successfully", deleted_id := detail_id,
           remaining_count := rest.length }, rest)

/-- The record stored after a successful update: name, email, message from
the request body, id and created_at from the matched record. -/
def updatedDetail (old : Detail) (detail : DetailItem) : Detail :=
  { id := old.id, name := detail.name, email := detail.email,
    message := detail.message, created_at := old.created_at }

end FormApi

namespace Auth

/-!
The authentication subsystem. Its handlers (`/register`, `/login`,
`/logout`, `/users`), the two stores `user_credentials` and
`active_sessions`, and the bcrypt-backed password hashing are not part of
`src/main.py`; only their tests (`tests/test_main.py`) and the
specification describe them. Every definition in this namespace is
therefore modelled from the spec, as recorded in its doc comment.
-/

/-- The sixteen hexadecimal digit characters. -/
def hexDigits : List Char := "0123456789abcdef".data

/-- Hexadecimal digit character of `n % 16`. -/
def hexChar (n : Nat) : Char := hexDigits.getD (n % 16) '0'

/-- Numeric value of a hexadecimal digit character (0 for anything else). -/
def hexVal (c : Char) : Nat :=
  match hexDigits.indexOf? c with
  | some i => i
  | none => 0

/-- Little-endian fixed-width hexadecimal rendering of a natural number. -/
def toHexAux : Nat → Nat → List Char
  | 0, _ => []
  | w + 1, n => hexChar (n % 16) :: toHexAux w (n / 16)

/-- Reading back a little-endian hexadecimal digit list. -/
def fromHexAux : List Char → Nat
  | [] => 0
  | c :: cs => hexVal c + 16 * fromHexAux cs

/-- One scrambled character of the digest body: a keyed shift of the code
point, always a valid scalar value below the surrogate range. -/
def shiftChar (salt : Nat) (c : Char) : Char :=
  Char.ofNat ((c.toNat + salt + 1) % 55296)

/-- Characterwise keyed scrambling used as the digest body of a stored
hash. -/
def scramble (salt : Nat) (l : List Char) : List Char := l.map (shiftChar salt)

/-- Modulus bounding the effective salt (16 hexadecimal digits). -/
def saltMod : Nat := 16 ^ 16

/-- Modelled from the spec: `PasswordHasher.hash` — a salted one-way digest
`$2b$<16 hex salt chars>$<digest>`; the salt is embedded in the stored
value and is regenerated (here: a fresh counter value) per call, so two
calls on the identical password produce different outputs. The bcrypt
computation itself is opaque to the spec and is modelled by a keyed
characterwise scramble. -/
def hash (salt : Nat) (password : String) : String :=
  String.mk ('$' :: '2' :: 'b' :: '$' ::
    (toHexAux 16 (salt % saltMod) ++ '$' :: scramble (salt % saltMod) password.data))

/-- Modelled from the spec: the salt embedded in a stored hash (the 16
characters after the `$2b$` prefix). -/
def extractSalt (stored : String) : Nat :=
  fromHexAux ((stored.data.drop 4).take 16)

/-- Modelled from the spec: `PasswordHasher.verify` — recompute the digest
using the salt embedded in `stored` and compare; total, and `false` on any
string that is not a well-formed hash. -/
def verify (password stored : String) : Bool :=
  stored == hash (extractSalt stored) password

/-- Modulus bounding the 32 hexadecimal token digits. -/
def tokenMod : Nat := 16 ^ 32

/-- The 32 hexadecimal digits of a session token. -/
def tokenDigits (n : Nat) : List Char := toHexAux 32 (n % tokenMod)

/-- Canonical UUID grouping 8-4-4-4-12 of 32 digits with 4 hyphens. -/
def withHyphens (l : List Char) : List Char :=
  l.take 8 ++ '-' :: ((l.drop 8).take 4 ++ '-' :: ((l.drop 12).take 4 ++ '-' ::
    ((l.drop 16).take 4 ++ '-' :: l.drop 20)))

/-- Modelled from the spec: `SessionStore.create`'s token generation — a
fresh UUID-class identifier, 36 characters in the canonical 8-4-4-4-12
grouping; freshness (uuid4 randomness) is modelled by a per-state
counter. -/
def mkToken (n : Nat) : String := String.mk (withHyphens (tokenDigits n))

/-- Modelled from the spec: the shared mutable state of the subsystem —
`user_credentials` maps username to password hash (CredentialStore),
`active_sessions` maps token to username (SessionStore); `nextSalt` and
`nextToken` model the fresh randomness consumed by hashing and token
generation. -/
structure AuthState where
  user_credentials : List (String × String)
  active_sessions : List (String × String)
  nextSalt : Nat
  nextToken : Nat
deriving DecidableEq, Repr

/-- Ordered dictionary lookup: the value at the first matching key. -/
def lookupStr : List (String × String) → String → Option String
  | [], _ => none
  | entry :: rest, key =>
    if entry.1 = key then some entry.2 else lookupStr rest key

/-- Modelled from the spec: `CredentialStore.exists`. -/
def credExists (st : AuthState) (username : String) : Bool :=
  (lookupStr st.user_credentials username).isSome

/-- Modelled from the spec: `CredentialStore.get`. -/
def credGet (st : AuthState) (username : String) : Option String :=
  lookupStr st.user_credentials username

/-- Modelled from the spec: `SessionStore.resolve`. -/
def sessionResolve (st : AuthState) (token : String) : Option String :=
  lookupStr st.active_sessions token

/-- Modelled from the spec: `SessionStore.revoke` — remove the binding of
`token` if present; a no-op on an absent token. -/
def revokeToken : List (String × String) → String → List (String × String)
  | [], _ => []
  | (k, v) :: rest, token =>
    if k = token then revokeToken rest token
    else (k, v) :: revokeToken rest token

/-- Modelled from the spec: `SessionStore.create` — mint a fresh token and
bind it to `username`, leaving existing sessions untouched. -/
def sessionCreate (st : AuthState) (username : String) : String × AuthState :=
  let token := mkToken st.nextToken
  (token, { st with active_sessions := (token, username) :: st.active_sessions,
                    nextToken := st.nextToken + 1 })

/-- Request body of `POST /register`. -/
structure RegisterRequest where
  username : String
  email : String
  password : String
deriving DecidableEq, Repr

/-- Request body of `POST /login`. -/
structure LoginRequest where
  username : String
  password : String
deriving DecidableEq, Repr

/-- Response body of `POST /register` and `POST /login`. -/
structure AuthOutcome where
  success : Bool
  message : String
  username : String
  token : Option String
deriving DecidableEq, Repr

/-- Structural validity of a register body (spec section 6: username 3 to 50
characters, password 6 to 100 characters); the email pattern is checked
upstream by the same validation tier and is never read by the handler. -/
def validRegister (req : RegisterRequest) : Prop :=
  3 ≤ req.username.length ∧ req.username.length ≤ 50 ∧
  6 ≤ req.password.length ∧ req.password.length ≤ 100

/-- Structural validity of a login body (spec section 6). -/
def validLogin (req : LoginRequest) : Prop :=
  3 ≤ req.username.length ∧ req.username.length ≤ 50 ∧
  6 ≤ req.password.length ∧ req.password.length ≤ 100

/-- Modelled from the spec: `AuthService.register` — duplicate username is
a business failure with `token = null` and an unchanged state; otherwise
hash the password, append the credential, create a session and succeed. -/
def register (st : AuthState) (req : RegisterRequest) : AuthOutcome × AuthState :=
  if credExists st req.username then
    ({ success := false, message := "Username already exists",
       username := req.username, token := none }, st)
  else
    let h := hash st.nextSalt req.password
    let st1 : AuthState :=
      { st with user_credentials := st.user_credentials ++ [(req.username, h)],
                nextSalt := st.nextSalt + 1 }
    let r := sessionCreate st1 req.username
    ({ success := true, message := "Registration successful",
       username := req.username, token := some r.1 }, r.2)

/-- Modelled from the spec: `AuthService.login` — an absent credential and
a failing `verify` both yield the identical failure body; on success a new
session is created, independent of existing ones. -/
def login (st : AuthState) (req : LoginRequest) : AuthOutcome × AuthState :=
  match credGet st req.username with
  | none =>
    ({ success := false, message := "Invalid username or password",
       username := req.username, token := none }, st)
  | some stored =>
    if verify req.password stored then
      let r := sessionCreate st req.username
      ({ success := true, message := "Login successful",
         username := req.username, token := some r.1 }, r.2)
    else
      ({ success := false, message := "Invalid username or password",
         username := req.username, token := none }, st)

/-- Modelled from the spec: bearer extraction — an Authorization header of
the exact shape `Bearer <token>` yields the token; a missing header or any
other shape is treated as no credential presented. -/
def extractBearer (header : Option String) : Option String :=
  match header with
  | none => none
  | some s =>
    if s.data.take 7 = "Bearer ".data then some (String.mk (s.data.drop 7))
    else none

/-- Modelled from the spec: `AuthService.logout` — always the same message;
if a bearer token was presented its session binding (if any) is revoked,
otherwise nothing changes. -/
def logout (st : AuthState) (header : Option String) : String × AuthState :=
  match extractBearer header with
  | none => ("Logged out successfully", st)
  | some token =>
    ("Logged out successfully",
     { st with active_sessions := revokeToken st.active_sessions token })

/-- Outcome of `GET /users`: 200 with the username list, 401 with no or an
unresolvable credential, 403 for a non-admin identity. -/
inductive UsersResult where
  | ok (users : List String) (count : Nat)
  | unauthenticated (detail : String)
  | invalidToken (detail : String)
  | forbidden (detail : String)
deriving DecidableEq, Repr

/-- HTTP status code of a `GET /users` outcome. -/
def UsersResult.status : UsersResult → Nat
  | .ok _ _ => 200
  | .unauthenticated _ => 401
  | .invalidToken _ => 401
  | .forbidden _ => 403

/-- Modelled from the spec: the `GET /users` handler behind
`AuthorizationGuard` — 401 without a bearer credential, 401 on an
unresolvable token, 403 unless the resolved username is the distinguished
admin identity, otherwise 200 with the bare usernames of every registered
credential and their count. -/
def getUsers (st : AuthState) (header : Option String) : UsersResult :=
  match extractBearer header with
  | none => .unauthenticated "Not authenticated"
  | some token =>
    match sessionResolve st token with
    | none => .invalidToken "Invalid or expired token"
    | some username =>
      if username = "admin" then
        .ok (st.user_credentials.map Prod.fst)
          (st.user_credentials.map Prod.fst).length
      else .forbidden "Forbidden: Admin access required"

/-- One state-changing operation of the subsystem. -/
inductive Op where
  | opRegister (req : RegisterRequest)
  | opLogin (req : LoginRequest)
  | opLogout (header : Option String)
deriving DecidableEq, Repr

/-- State transition of one operation. -/
def step (st : AuthState) : Op → AuthState
  | .opRegister req => (register st req).2
  | .opLogin req => (login st req).2
  | .opLogout header => (logout st header).2

/-- The empty initial state (both stores empty). -/
def initState : AuthState :=
  { user_credentials := [], active_sessions := [], nextSalt := 0, nextToken := 0 }

/-- Running a sequence of operations from a state. -/
def runFrom (st : AuthState) : List Op → AuthState
  | [] => st
  | op :: ops => runFrom (step st op) ops

/-- A state reachable from the empty state by register/login/logout
operations. -/
def Reachable (st : AuthState) : Prop := ∃ ops, runFrom initState ops = st

/-- The plaintext password supplied at the (unique, first successful)
registration of `u` along a trace run from `st`; `none` if `u` is never
successfully registered in the trace. -/
def regPwFrom (st : AuthState) : List Op → String → Option String
  | [], _ => none
  | op :: ops, u =>
    match op with
    | .opRegister req =>
      if req.username = u ∧ credExists st u = false then some req.password
      else regPwFrom (step st op) ops u
    | _ => regPwFrom (step st op) ops u

/-- Number of hyphen characters in a string. -/
def countHyphens (s : String) : Nat := s.data.count '-'

/-- The store-pair invariant of spec section 3: every session's owner is a
registered username, and the credential store has at most one entry per
username. -/
def StoreInv (st : AuthState) : Prop :=
  (∀ q ∈ st.active_sessions, credExists st q.2 = true) ∧
  (st.user_credentials.map Prod.fst).Nodup

end Auth

namespace FormApi

lemma update_detail_no_match (store : List Detail) (detail_id : String)
    (detail : DetailItem) (h : ∀ x ∈ store, x.id ≠ detail_id) :
    update_detail store detail_id detail = (.error "Detail not found", store) := by
  induction store with
  | nil => rfl
  | cons item rest ih =>
    simp only [update_detail]
    rw [if_neg (h item (List.mem_cons_self _ _))]
    rw [ih (fun x hx => h x (List.mem_cons_of_mem _ hx))]

lemma update_detail_first_match (pre post : List Detail) (old : Detail)
    (detail_id : String) (detail : DetailItem)
    (hpre : ∀ x ∈ pre, x.id ≠ detail_id) (hold : old.id = detail_id) :
    update_detail (pre ++ old :: post) detail_id detail =
      (.ok (updatedDetail old detail), pre ++ updatedDetail old detail :: post) := by
  induction pre with
  | nil =>
    simp only [List.nil_append, update_detail]
    rw [if_pos hold]
    rfl
  | cons item rest ih =>
    simp only [List.cons_append, update_detail]
    rw [if_neg (hpre item (List.mem_cons_self _ _))]
    simp only [List.append_eq]
    rw [ih (fun x hx => hpre x (List.mem_cons_of_mem _ hx))]

lemma removeFirst_no_match (store : List Detail) (detail_id : String)
    (h : ∀ x ∈ store, x.id ≠ detail_id) :
    removeFirst store detail_id = none := by
  induction store with
  | nil => rfl
  | cons item rest ih =>
    simp only [removeFirst]
    rw [if_neg (h item (List.mem_cons_self _ _))]
    rw [ih (fun x hx => h x (List.mem_cons_of_mem _ hx))]
    rfl

lemma removeFirst_first_match (pre post : List Detail) (old : Detail)
    (detail_id : String)
    (hpre : ∀ x ∈ pre, x.id ≠ detail_id) (hold : old.id = detail_id) :
    removeFirst (pre ++ old :: post) detail_id = some (pre ++ post) := by
  induction pre with
  | nil =>
    simp only [List.nil_append, removeFirst]
    rw [if_pos hold]
  | cons item rest ih =>
    simp only [List.cons_append, removeFirst]
    rw [if_neg (hpre item (List.mem_cons_self _ _))]
    simp only [List.append_eq]
    rw [ih (fun x hx => hpre x (List.mem_cons_of_mem _ hx))]
    rfl

/-- Any store with a matching record splits as `pre ++ old :: post` around the
first match. -/
lemma exists_first_match (store : List Detail) (detail_id : String)
    (h : ∃ item ∈ store, item.id = detail_id) :
    ∃ pre old post, store = pre ++ old :: post ∧
      (∀ x ∈ pre, x.id ≠ detail_id) ∧ old.id = detail_id := by
  induction store with
  | nil => simp at h
  | cons item rest ih =>
    by_cases hid : item.id = detail_id
    · exact ⟨[], item, rest, rfl, by simp, hid⟩
    · have : ∃ x ∈ rest, x.id = detail_id := by
        rcases h with ⟨x, hx, hxid⟩
        rcases List.mem_cons.mp hx with rfl | hx'
        · exact absurd hxid hid
        · exact ⟨x, hx', hxid⟩
      rcases ih this with ⟨pre, old, post, heq, hpre, hold⟩
      exact ⟨item :: pre, old, post, by rw [heq, List.cons_append],
        fun x hx => by
          rcases List.mem_cons.mp hx with rfl | hx'
          · exact hid
          · exact hpre x hx', hold⟩

end FormApi

namespace Auth

lemma toHexAux_length (w n : Nat) : (toHexAux w n).length = w := by
  induction w generalizing n with
  | zero => rfl
  | succ w ih => simp [toHexAux, ih]

lemma hexVal_hexChar (n : Nat) : hexVal (hexChar n) = n % 16 := by
  have hb : ∀ m, m < 16 → hexVal (hexDigits.getD m '0') = m := by decide
  exact hb (n % 16) (Nat.mod_lt _ (by norm_num))

lemma fromHex_toHex (w n : Nat) : fromHexAux (toHexAux w n) = n % 16 ^ w := by
  induction w generalizing n with
  | zero => simp [toHexAux, fromHexAux, Nat.mod_one]
  | succ w ih =>
    simp only [toHexAux, fromHexAux, hexVal_hexChar, ih,
      Nat.mod_mod_of_dvd _ (dvd_refl 16)]
    rw [pow_succ', Nat.mod_mul]

lemma hexChar_ne_hyphen (n : Nat) : hexChar n ≠ '-' := by
  have hb : ∀ m, m < 16 → hexDigits.getD m '0' ≠ '-' := by decide
  exact hb (n % 16) (Nat.mod_lt _ (by norm_num))

lemma toHexAux_mem_ne_hyphen (w n : Nat) : ∀ c ∈ toHexAux w n, c ≠ '-' := by
  induction w generalizing n with
  | zero => simp [toHexAux]
  | succ w ih =>
    intro c hc
    rcases List.mem_cons.mp hc with rfl | hc'
    · exact hexChar_ne_hyphen _
    · exact ih _ c hc'

lemma tokenDigits_length (n : Nat) : (tokenDigits n).length = 32 :=
  toHexAux_length _ _

lemma tokenDigits_mem_ne_hyphen (n : Nat) : ∀ c ∈ tokenDigits n, c ≠ '-' :=
  toHexAux_mem_ne_hyphen _ _

lemma mkToken_length (n : Nat) : (mkToken n).length = 36 := by
  show (withHyphens (tokenDigits n)).length = 36
  have h := tokenDigits_length n
  simp [withHyphens, List.length_append, List.length_take, List.length_drop, h]

lemma mkToken_hyphens (n : Nat) : countHyphens (mkToken n) = 4 := by
  show (withHyphens (tokenDigits n)).count '-' = 4
  have hz : ∀ l : List Char, l ⊆ tokenDigits n → l.count '-' = 0 := fun l hl =>
    List.count_eq_zero.mpr (fun hm => tokenDigits_mem_ne_hyphen n '-' (hl hm) rfl)
  simp only [withHyphens, List.count_append, List.count_cons]
  rw [hz _ (List.take_subset _ _),
      hz _ ((List.take_subset _ _).trans (List.drop_subset _ _)),
      hz _ ((List.take_subset _ _).trans (List.drop_subset _ _)),
      hz _ ((List.take_subset _ _).trans (List.drop_subset _ _)),
      hz _ (List.drop_subset _ _)]
  simp

lemma withHyphens_filter (l : List Char) (hl : ∀ c ∈ l, c ≠ '-') :
    (withHyphens l).filter (fun c => !(c == '-')) = l := by
  have hself : ∀ m : List Char, m ⊆ l → m.filter (fun c => !(c == '-')) = m :=
    fun m hm => List.filter_eq_self.mpr
      (fun a ha => by simp [hl a (hm ha)])
  simp only [withHyphens, List.filter_append, List.filter_cons]
  norm_num
  rw [hself _ (List.take_subset _ _),
      hself _ ((List.take_subset _ _).trans (List.drop_subset _ _)),
      hself _ ((List.take_subset _ _).trans (List.drop_subset _ _)),
      hself _ ((List.take_subset _ _).trans (List.drop_subset _ _)),
      hself _ (List.drop_subset _ _)]
  have h16 : (l.drop 16).take 4 ++ l.drop 20 = l.drop 16 := by
    have := List.drop_take_append_drop l 16 4
    norm_num at this
    exact this
  have h12 : (l.drop 12).take 4 ++ l.drop 16 = l.drop 12 := by
    have := List.drop_take_append_drop l 12 4
    norm_num at this
    exact this
  have h8 : (l.drop 8).take 4 ++ l.drop 12 = l.drop 8 := by
    have := List.drop_take_append_drop l 8 4
    norm_num at this
    exact this
  rw [h16, h12, h8, List.take_append_drop]

lemma mkToken_inj_mod {a b : Nat} (h : mkToken a = mkToken b) :
    a % tokenMod = b % tokenMod := by
  have hd : withHyphens (tokenDigits a) = withHyphens (tokenDigits b) :=
    congrArg String.data h
  have hfa := withHyphens_filter (tokenDigits a) (tokenDigits_mem_ne_hyphen a)
  have hfb := withHyphens_filter (tokenDigits b) (tokenDigits_mem_ne_hyphen b)
  have hdig : tokenDigits a = tokenDigits b := by rw [← hfa, ← hfb, hd]
  have hfe := congrArg fromHexAux hdig
  rw [tokenDigits, tokenDigits, fromHex_toHex, fromHex_toHex] at hfe
  have hma : a % tokenMod % 16 ^ 32 = a % tokenMod :=
    Nat.mod_mod_of_dvd _ (by simp [tokenMod])
  have hmb : b % tokenMod % 16 ^ 32 = b % tokenMod :=
    Nat.mod_mod_of_dvd _ (by simp [tokenMod])
  rw [hma, hmb] at hfe
  exact hfe

lemma mkToken_succ_ne (n : Nat) : mkToken n ≠ mkToken (n + 1) := by
  intro h
  have hmod := mkToken_inj_mod h
  have hdvd : tokenMod ∣ n + 1 - n := (Nat.modEq_iff_dvd' (Nat.le_succ n)).mp hmod
  rw [Nat.add_sub_cancel_left] at hdvd
  have hle := Nat.le_of_dvd one_pos hdvd
  have h2 : (2 : Nat) ≤ tokenMod := by norm_num [tokenMod]
  omega

lemma hash_length (s : Nat) (p : String) : (hash s p).length = p.length + 21 := by
  show ('$' :: '2' :: 'b' :: '$' ::
    (toHexAux 16 (s % saltMod) ++ '$' :: scramble (s % saltMod) p.data)).length =
      p.length + 21
  simp only [List.length_cons, List.length_append, toHexAux_length, scramble,
    List.length_map]
  show 16 + (p.length + 1) + 1 + 1 + 1 + 1 = p.length + 21
  omega

lemma hash_ne_plaintext (s : Nat) (p : String) : hash s p ≠ p := by
  intro h
  have hlen := congrArg String.length h
  rw [hash_length] at hlen
  omega

lemma extractSalt_hash (s : Nat) (p : String) : extractSalt (hash s p) = s % saltMod := by
  have hdata : (hash s p).data = '$' :: '2' :: 'b' :: '$' ::
      (toHexAux 16 (s % saltMod) ++ '$' :: scramble (s % saltMod) p.data) := rfl
  rw [extractSalt, hdata]
  simp only [List.drop_succ_cons, List.drop_zero]
  rw [List.take_left' (toHexAux_length 16 (s % saltMod)), fromHex_toHex]
  exact Nat.mod_mod_of_dvd _ (by simp [saltMod])

lemma hash_salt_mod (s : Nat) (p : String) : hash (s % saltMod) p = hash s p := by
  simp [hash, Nat.mod_mod_of_dvd _ (dvd_refl saltMod)]

lemma verify_hash_self (s : Nat) (p : String) : verify p (hash s p) = true := by
  rw [verify, extractSalt_hash, hash_salt_mod]
  exact beq_self_eq_true _

lemma verify_not_hash (p stored : String) (h : ∀ s q, stored ≠ hash s q) :
    verify p stored = false := by
  rw [verify]
  exact beq_eq_false_iff_ne.mpr (h _ _)

lemma hash_succ_ne (s : Nat) (p : String) : hash s p ≠ hash (s + 1) p := by
  intro h
  have hsalt := congrArg extractSalt h
  rw [extractSalt_hash, extractSalt_hash] at hsalt
  have hdvd : saltMod ∣ s + 1 - s := (Nat.modEq_iff_dvd' (Nat.le_succ s)).mp hsalt
  rw [Nat.add_sub_cancel_left] at hdvd
  have hle := Nat.le_of_dvd one_pos hdvd
  have h2 : (2 : Nat) ≤ saltMod := by norm_num [saltMod]
  omega

lemma extractBearer_bearer (t : String) : extractBearer (some ("Bearer " ++ t)) = some t := by
  have hlen : ("Bearer ".data).length = 7 := rfl
  simp only [extractBearer, String.data_append]
  rw [List.take_left' hlen, List.drop_left' hlen]
  simp

lemma lookupStr_append_some (l1 l2 : List (String × String)) (k v : String)
    (h : lookupStr l1 k = some v) : lookupStr (l1 ++ l2) k = some v := by
  induction l1 with
  | nil => simp [lookupStr] at h
  | cons q rest ih =>
    rcases q with ⟨a, b⟩
    simp only [lookupStr, List.cons_append] at h ⊢
    split at h
    · rw [if_pos (by assumption)]
      exact h
    · rw [if_neg (by assumption)]
      exact ih h

lemma lookupStr_append_none (l1 l2 : List (String × String)) (k : String)
    (h : lookupStr l1 k = none) : lookupStr (l1 ++ l2) k = lookupStr l2 k := by
  induction l1 with
  | nil => simp
  | cons q rest ih =>
    rcases q with ⟨a, b⟩
    simp only [lookupStr, List.cons_append] at h ⊢
    split at h
    · exact absurd h (by simp)
    · rw [if_neg (by assumption)]
      exact ih h

lemma lookupStr_eq_none_iff (l : List (String × String)) (k : String) :
    lookupStr l k = none ↔ k ∉ l.map Prod.fst := by
  induction l with
  | nil => simp [lookupStr]
  | cons q rest ih =>
    rcases q with ⟨a, b⟩
    simp only [lookupStr, List.map_cons, List.mem_cons]
    by_cases hak : a = k
    · simp [hak]
    · simp only [if_neg hak, ih]
      constructor
      · intro h hc
        rcases hc with hc | hc
        · exact hak hc.symm
        · exact h hc
      · intro h hc
        exact h (Or.inr hc)

lemma lookupStr_mem (l : List (String × String)) (k v : String)
    (h : lookupStr l k = some v) : (k, v) ∈ l := by
  induction l with
  | nil => simp [lookupStr] at h
  | cons q rest ih =>
    rcases q with ⟨a, b⟩
    simp only [lookupStr] at h
    split at h
    · rename_i hak
      rcases Option.some.inj h with rfl
      rcases hak
      exact List.mem_cons_self _ _
    · exact List.mem_cons_of_mem _ (ih h)

lemma lookupStr_mem_keys (l : List (String × String)) (k v : String)
    (h : lookupStr l k = some v) : k ∈ l.map Prod.fst := by
  have := lookupStr_mem l k v h
  exact List.mem_map.mpr ⟨(k, v), this, rfl⟩

lemma revokeToken_subset (l : List (String × String)) (t : String) :
    ∀ q ∈ revokeToken l t, q ∈ l := by
  induction l with
  | nil => simp [revokeToken]
  | cons q rest ih =>
    rcases q with ⟨a, b⟩
    intro x hx
    simp only [revokeToken] at hx
    split at hx
    · exact List.mem_cons_of_mem _ (ih x hx)
    · rcases List.mem_cons.mp hx with rfl | hx'
      · exact List.mem_cons_self _ _
      · exact List.mem_cons_of_mem _ (ih x hx')

lemma revokeToken_lookup_self (l : List (String × String)) (t : String) :
    lookupStr (revokeToken l t) t = none := by
  induction l with
  | nil => rfl
  | cons q rest ih =>
    rcases q with ⟨a, b⟩
    simp only [revokeToken]
    split
    · exact ih
    · simp only [lookupStr]
      rw [if_neg (by assumption)]
      exact ih

lemma revokeToken_not_mem (l : List (String × String)) (t : String)
    (h : lookupStr l t = none) : revokeToken l t = l := by
  induction l with
  | nil => rfl
  | cons q rest ih =>
    rcases q with ⟨a, b⟩
    simp only [lookupStr] at h
    split at h
    · exact absurd h (by simp)
    · simp only [revokeToken]
      rw [if_neg (by assumption), ih h]

lemma register_exists_eq (st : AuthState) (req : RegisterRequest)
    (h : credExists st req.username = true) :
    register st req =
      ({ success := false, message := "Username already exists",
         username := req.username, token := none }, st) := by
  rw [register, if_pos h]

lemma register_new_eq (st : AuthState) (req : RegisterRequest)
    (h : credExists st req.username = false) :
    register st req =
      ({ success := true, message := "Registration successful",
         username := req.username, token := some (mkToken st.nextToken) },
       { user_credentials :=
           st.user_credentials ++ [(req.username, hash st.nextSalt req.password)],
         active_sessions := (mkToken st.nextToken, req.username) :: st.active_sessions,
         nextSalt := st.nextSalt + 1,
         nextToken := st.nextToken + 1 }) := by
  rw [register, if_neg (by simp [h])]
  rfl

lemma login_none_eq (st : AuthState) (req : LoginRequest)
    (h : credGet st req.username = none) :
    login st req =
      ({ success := false, message := "Invalid username or password",
         username := req.username, token := none }, st) := by
  unfold login
  rw [h]

lemma login_fail_eq (st : AuthState) (req : LoginRequest) (stored : String)
    (hs : credGet st req.username = some stored)
    (hv : verify req.password stored = false) :
    login st req =
      ({ success := false, message := "Invalid username or password",
         username := req.username, token := none }, st) := by
  unfold login
  rw [hs]
  simp only [hv]
  rfl

lemma login_success_eq (st : AuthState) (req : LoginRequest) (stored : String)
    (hs : credGet st req.username = some stored)
    (hv : verify req.password stored = true) :
    login st req =
      ({ success := true, message := "Login successful",
         username := req.username, token := some (mkToken st.nextToken) },
       { user_credentials := st.user_credentials,
         active_sessions := (mkToken st.nextToken, req.username) :: st.active_sessions,
         nextSalt := st.nextSalt,
         nextToken := st.nextToken + 1 }) := by
  unfold login
  rw [hs]
  simp only [hv]
  rfl

lemma logout_none_eq (st : AuthState) (header : Option String)
    (h : extractBearer header = none) :
    logout st header = ("Logged out successfully", st) := by
  unfold logout
  rw [h]

lemma logout_some_eq (st : AuthState) (header : Option String) (t : String)
    (h : extractBearer header = some t) :
    logout st header =
      ("Logged out successfully",
       { user_credentials := st.user_credentials,
         active_sessions := revokeToken st.active_sessions t,
         nextSalt := st.nextSalt,
         nextToken := st.nextToken }) := by
  unfold logout
  rw [h]

lemma getUsers_no_header (st : AuthState) (header : Option String)
    (h : extractBearer header = none) :
    getUsers st header = .unauthenticated "Not authenticated" := by
  unfold getUsers
  rw [h]

lemma getUsers_bad_token (st : AuthState) (header : Option String) (t : String)
    (ht : extractBearer header = some t) (hr : sessionResolve st t = none) :
    getUsers st header = .invalidToken "Invalid or expired token" := by
  simp only [getUsers, ht, hr]

lemma getUsers_non_admin (st : AuthState) (header : Option String) (t u : String)
    (ht : extractBearer header = some t) (hr : sessionResolve st t = some u)
    (hu : u ≠ "admin") :
    getUsers st header = .forbidden "Forbidden: Admin access required" := by
  simp only [getUsers, ht, hr]
  rw [if_neg hu]

lemma getUsers_admin (st : AuthState) (header : Option String) (t : String)
    (ht : extractBearer header = some t) (hr : sessionResolve st t = some "admin") :
    getUsers st header =
      .ok (st.user_credentials.map Prod.fst)
        (st.user_credentials.map Prod.fst).length := by
  simp [getUsers, ht, hr]

lemma lookup_none_of_credExists_false (st : AuthState) (u : String)
    (h : credExists st u = false) : lookupStr st.user_credentials u = none := by
  unfold credExists at h
  cases hx : lookupStr st.user_credentials u with
  | none => rfl
  | some v => rw [hx] at h; simp at h

lemma step_credGet_some (st : AuthState) (op : Op) (u h : String)
    (hget : credGet st u = some h) : credGet (step st op) u = some h := by
  cases op with
  | opRegister req =>
    show credGet (register st req).2 u = some h
    cases hcr : credExists st req.username with
    | true => rw [register_exists_eq st req hcr]; exact hget
    | false =>
      rw [register_new_eq st req hcr]
      exact lookupStr_append_some _ _ _ _ hget
  | opLogin req =>
    show credGet (login st req).2 u = some h
    cases hc : credGet st req.username with
    | none => rw [login_none_eq st req hc]; exact hget
    | some stored =>
      cases hv : verify req.password stored with
      | false => rw [login_fail_eq st req stored hc hv]; exact hget
      | true => rw [login_success_eq st req stored hc hv]; exact hget
  | opLogout header =>
    show credGet (logout st header).2 u = some h
    cases hb : extractBearer header with
    | none => rw [logout_none_eq st header hb]; exact hget
    | some t => rw [logout_some_eq st header t hb]; exact hget

lemma runFrom_credGet_some (ops : List Op) (st : AuthState) (u h : String)
    (hget : credGet st u = some h) : credGet (runFrom st ops) u = some h := by
  induction ops generalizing st with
  | nil => exact hget
  | cons op ops ih => exact ih _ (step_credGet_some st op u h hget)

lemma storeInv_step (st : AuthState) (op : Op) (hinv : StoreInv st) :
    StoreInv (step st op) := by
  obtain ⟨hsess, hnodup⟩ := hinv
  cases op with
  | opRegister req =>
    show StoreInv (register st req).2
    cases hcr : credExists st req.username with
    | true => rw [register_exists_eq st req hcr]; exact ⟨hsess, hnodup⟩
    | false =>
      rw [register_new_eq st req hcr]
      have hnone : lookupStr st.user_credentials req.username = none :=
        lookup_none_of_credExists_false st req.username hcr
      constructor
      · intro q hq
        rcases List.mem_cons.mp hq with rfl | hq'
        · show (lookupStr (st.user_credentials ++
            [(req.username, hash st.nextSalt req.password)]) req.username).isSome = true
          rw [lookupStr_append_none _ _ _ hnone]
          simp [lookupStr]
        · have hex := hsess q hq'
          obtain ⟨v, hv⟩ := Option.isSome_iff_exists.mp hex
          show (lookupStr (st.user_credentials ++
            [(req.username, hash st.nextSalt req.password)]) q.2).isSome = true
          rw [lookupStr_append_some _ _ _ _ hv]
          rfl
      · show ((st.user_credentials ++
          [(req.username, hash st.nextSalt req.password)]).map Prod.fst).Nodup
        rw [List.map_append]
        refine List.Nodup.append hnodup (by simp) ?_
        intro a ha hb
        simp only [List.map_cons, List.map_nil, List.mem_singleton] at hb
        subst hb
        exact (lookupStr_eq_none_iff _ _).mp hnone ha
  | opLogin req =>
    show StoreInv (login st req).2
    cases hc : credGet st req.username with
    | none => rw [login_none_eq st req hc]; exact ⟨hsess, hnodup⟩
    | some stored =>
      cases hv : verify req.password stored with
      | false => rw [login_fail_eq st req stored hc hv]; exact ⟨hsess, hnodup⟩
      | true =>
        rw [login_success_eq st req stored hc hv]
        constructor
        · intro q hq
          rcases List.mem_cons.mp hq with rfl | hq'
          · show (lookupStr st.user_credentials req.username).isSome = true
            have hc' : lookupStr st.user_credentials req.username = some stored := hc
            rw [hc']
            rfl
          · exact hsess q hq'
        · exact hnodup
  | opLogout header =>
    show StoreInv (logout st header).2
    cases hb : extractBearer header with
    | none => rw [logout_none_eq st header hb]; exact ⟨hsess, hnodup⟩
    | some t =>
      rw [logout_some_eq st header t hb]
      refine ⟨?_, hnodup⟩
      intro q hq
      exact hsess q (revokeToken_subset _ _ q hq)

lemma storeInv_init : StoreInv initState := by
  constructor
  · intro q hq
    simp [initState] at hq
  · simp [initState]

lemma storeInv_runFrom (ops : List Op) (st : AuthState) (h : StoreInv st) :
    StoreInv (runFrom st ops) := by
  induction ops generalizing st with
  | nil => exact h
  | cons op ops ih => exact ih _ (storeInv_step st op h)

lemma storeInv_reachable (st : AuthState) (h : Reachable st) : StoreInv st := by
  obtain ⟨ops, rfl⟩ := h
  exact storeInv_runFrom ops initState storeInv_init

lemma regPw_hash (ops : List Op) (st : AuthState) (u p : String)
    (h : regPwFrom st ops u = some p) :
    ∃ s, credGet (runFrom st ops) u = some (hash s p) := by
  induction ops generalizing st with
  | nil => simp [regPwFrom] at h
  | cons op ops ih =>
    cases op with
    | opRegister req =>
      simp only [regPwFrom] at h
      split at h
      · rename_i hcond
        obtain ⟨heq, hex⟩ := hcond
        subst heq
        rcases Option.some.inj h with rfl
        refine ⟨st.nextSalt, ?_⟩
        have hstep : credGet (step st (Op.opRegister req)) req.username
            = some (hash st.nextSalt req.password) := by
          show credGet (register st req).2 req.username = _
          rw [register_new_eq st req hex]
          show lookupStr (st.user_credentials ++
            [(req.username, hash st.nextSalt req.password)]) req.username = _
          rw [lookupStr_append_none _ _ _
            (lookup_none_of_credExists_false st req.username hex)]
          simp [lookupStr]
        exact runFrom_credGet_some ops _ _ _ hstep
      · exact ih _ h
    | opLogin req => exact ih _ h
    | opLogout header => exact ih _ h

end Auth

namespace FormApi

lemma get_detail_found (store : List Detail) (detail_id : String) (item : Detail)
    (hf : store.find? (fun x => x.id = detail_id) = some item) :
    get_detail_by_id store detail_id = .ok item := by
  unfold get_detail_by_id
  rw [hf]

lemma get_detail_not_found (store : List Detail) (detail_id : String)
    (hf : store.find? (fun x => x.id = detail_id) = none) :
    get_detail_by_id store detail_id = .error "Detail not found" := by
  unfold get_detail_by_id
  rw [hf]

lemma delete_detail_none (store : List Detail) (detail_id : String)
    (hf : removeFirst store detail_id = none) :
    delete_detail store detail_id = (.error "Detail not found", store) := by
  unfold delete_detail
  rw [hf]

lemma delete_detail_some (store : List Detail) (detail_id : String)
    (rest : List Detail) (hf : removeFirst store detail_id = some rest) :
    delete_detail store detail_id =
      (.ok { message := "Detail deleted successfully", deleted_id := detail_id,
             remaining_count := rest.length }, rest) := by
  unfold delete_detail
  rw [hf]

/-- C9: for every store in which some record has id `detail_id` (written as
the split `pre ++ old :: post` around the first such record), `update_detail`
with a valid body replaces only the name, email and message fields of that
first record, keeps its id and created_at, leaves every other record
unchanged, and does not change the number of stored records. -/
theorem update_detail_frame_spec (pre post : List Detail) (old : Detail)
    (detail_id : String) (detail : DetailItem)
    (hpre : ∀ x ∈ pre, x.id ≠ detail_id) (hold : old.id = detail_id) :
    update_detail (pre ++ old :: post) detail_id detail =
      (.ok (updatedDetail old detail), pre ++ updatedDetail old detail :: post) ∧
    (updatedDetail old detail).id = old.id ∧
    (updatedDetail old detail).created_at = old.created_at ∧
    (updatedDetail old detail).name = detail.name ∧
    (updatedDetail old detail).email = detail.email ∧
    (updatedDetail old detail).message = detail.message ∧
    (pre ++ updatedDetail old detail :: post).length = (pre ++ old :: post).length :=
  ⟨update_detail_first_match pre post old detail_id detail hpre hold,
   rfl, rfl, rfl, rfl, rfl, by simp⟩

/-- Witness for C9 at a concrete two-record store. -/
theorem update_detail_frame_spec_witness :
    (∀ x ∈ [(⟨"id1", "n1", "e1", "m1", "t1"⟩ : Detail)], x.id ≠ "id2") ∧
    (⟨"id2", "n2", "e2", "m2", "t2"⟩ : Detail).id = "id2" ∧
    update_detail
        ([⟨"id1", "n1", "e1", "m1", "t1"⟩] ++
          (⟨"id2", "n2", "e2", "m2", "t2"⟩ : Detail) :: [⟨"id3", "n3", "e3", "m3", "t3"⟩])
        "id2" ⟨"n9", "e9", "m9"⟩ =
      (.ok (updatedDetail ⟨"id2", "n2", "e2", "m2", "t2"⟩ ⟨"n9", "e9", "m9"⟩),
       [⟨"id1", "n1", "e1", "m1", "t1"⟩] ++
         updatedDetail ⟨"id2", "n2", "e2", "m2", "t2"⟩ ⟨"n9", "e9", "m9"⟩ ::
           [⟨"id3", "n3", "e3", "m3", "t3"⟩]) :=
  ⟨by decide, rfl,
   (update_detail_frame_spec [⟨"id1", "n1", "e1", "m1", "t1"⟩]
     [⟨"id3", "n3", "e3", "m3", "t3"⟩] ⟨"id2", "n2", "e2", "m2", "t2"⟩
     "id2" ⟨"n9", "e9", "m9"⟩ (by decide) rfl).1⟩

/-- C10: `get_detail_by_id`, `update_detail` and `delete_detail` raise 404
with detail "Detail not found" exactly when no stored record has the given
id, and in that case the store is unchanged; when a match exists,
`delete_detail` removes exactly the first matching record and returns a
remaining_count equal to the new length of the store. -/
theorem detail_404_delete_count_spec (store : List Detail) (detail_id : String)
    (detail : DetailItem) :
    (get_detail_by_id store detail_id = .error "Detail not found" ↔
      ∀ x ∈ store, x.id ≠ detail_id) ∧
    ((update_detail store detail_id detail).1 = .error "Detail not found" ↔
      ∀ x ∈ store, x.id ≠ detail_id) ∧
    ((delete_detail store detail_id).1 = .error "Detail not found" ↔
      ∀ x ∈ store, x.id ≠ detail_id) ∧
    ((∀ x ∈ store, x.id ≠ detail_id) →
      (update_detail store detail_id detail).2 = store ∧
      (delete_detail store detail_id).2 = store) ∧
    (∀ pre old post, store = pre ++ old :: post →
      (∀ x ∈ pre, x.id ≠ detail_id) → old.id = detail_id →
      delete_detail store detail_id =
        (.ok { message := "Detail deleted successfully", deleted_id := detail_id,
               remaining_count := (pre ++ post).length }, pre ++ post) ∧
      (pre ++ post).length + 1 = store.length) := by
  refine ⟨?_, ?_, ?_, ?_, ?_⟩
  · cases hf : store.find? (fun x => x.id = detail_id) with
    | some item =>
      have hmem := List.mem_of_find?_eq_some hf
      have hid : item.id = detail_id := by
        have hp := List.find?_some hf
        simpa using hp
      rw [get_detail_found store detail_id item hf]
      constructor
      · intro h
        exact absurd h (by simp)
      · intro hall
        exact absurd hid (hall item hmem)
    | none =>
      rw [get_detail_not_found store detail_id hf]
      constructor
      · intro _ x hx
        have := List.find?_eq_none.mp hf x hx
        simpa using this
      · intro _
        rfl
  · constructor
    · intro h
      by_contra hall
      push_neg at hall
      obtain ⟨x, hx, hxid⟩ := hall
      obtain ⟨pre, old, post, rfl, hpre, hold⟩ :=
        exists_first_match store detail_id ⟨x, hx, hxid⟩
      rw [update_detail_first_match pre post old detail_id detail hpre hold] at h
      simp at h
    · intro hall
      rw [update_detail_no_match store detail_id detail hall]
  · constructor
    · intro h
      by_contra hall
      push_neg at hall
      obtain ⟨x, hx, hxid⟩ := hall
      obtain ⟨pre, old, post, rfl, hpre, hold⟩ :=
        exists_first_match store detail_id ⟨x, hx, hxid⟩
      rw [delete_detail_some _ _ _
        (removeFirst_first_match pre post old detail_id hpre hold)] at h
      simp at h
    · intro hall
      rw [delete_detail_none store detail_id (removeFirst_no_match store detail_id hall)]
  · intro hall
    constructor
    · rw [update_detail_no_match store detail_id detail hall]
    · rw [delete_detail_none store detail_id (removeFirst_no_match store detail_id hall)]
  · intro pre old post heq hpre hold
    subst heq
    refine ⟨delete_detail_some _ _ _
      (removeFirst_first_match pre post old detail_id hpre hold), ?_⟩
    simp [List.length_append]
    omega

/-- Witness for C10 at a concrete store: both the missing-id and the
matching-id cases are exercised. -/
theorem detail_404_delete_count_spec_witness :
    ((get_detail_by_id [(⟨"id1", "n1", "e1", "m1", "t1"⟩ : Detail)] "zzz" =
        .error "Detail not found" ↔
      ∀ x ∈ [(⟨"id1", "n1", "e1", "m1", "t1"⟩ : Detail)], x.id ≠ "zzz") ∧
    ((update_detail [(⟨"id1", "n1", "e1", "m1", "t1"⟩ : Detail)] "zzz"
        ⟨"n9", "e9", "m9"⟩).1 = .error "Detail not found" ↔
      ∀ x ∈ [(⟨"id1", "n1", "e1", "m1", "t1"⟩ : Detail)], x.id ≠ "zzz") ∧
    ((delete_detail [(⟨"id1", "n1", "e1", "m1", "t1"⟩ : Detail)] "zzz").1 =
        .error "Detail not found" ↔
      ∀ x ∈ [(⟨"id1", "n1", "e1", "m1", "t1"⟩ : Detail)], x.id ≠ "zzz") ∧
    ((∀ x ∈ [(⟨"id1", "n1", "e1", "m1", "t1"⟩ : Detail)], x.id ≠ "zzz") →
      (update_detail [(⟨"id1", "n1", "e1", "m1", "t1"⟩ : Detail)] "zzz"
        ⟨"n9", "e9", "m9"⟩).2 = [⟨"id1", "n1", "e1", "m1", "t1"⟩] ∧
      (delete_detail [(⟨"id1", "n1", "e1", "m1", "t1"⟩ : Detail)] "zzz").2 =
        [⟨"id1", "n1", "e1", "m1", "t1"⟩]) ∧
    (∀ pre old post,
      [(⟨"id1", "n1", "e1", "m1", "t1"⟩ : Detail)] = pre ++ old :: post →
      (∀ x ∈ pre, x.id ≠ "zzz") → old.id = "zzz" →
      delete_detail [(⟨"id1", "n1", "e1", "m1", "t1"⟩ : Detail)] "zzz" =
        (.ok { message := "Detail deleted successfully", deleted_id := "zzz",
               remaining_count := (pre ++ post).length }, pre ++ post) ∧
      (pre ++ post).length + 1 =
        ([(⟨"id1", "n1", "e1", "m1", "t1"⟩ : Detail)] : List Detail).length)) ∧
    delete_detail [(⟨"id1", "n1", "e1", "m1", "t1"⟩ : Detail)] "id1" =
      (.ok { message := "Detail deleted successfully", deleted_id := "id1",
             remaining_count := 0 }, []) :=
  ⟨detail_404_delete_count_spec [⟨"id1", "n1", "e1", "m1", "t1"⟩] "zzz" ⟨"n9", "e9", "m9"⟩,
   rfl⟩

end FormApi

namespace Auth

lemma not_hash_of_short (stored : String) (h : stored.length < 21) :
    ∀ s pw, stored ≠ hash s pw := by
  intro s pw heq
  have hlen := congrArg String.length heq
  rw [hash_length] at hlen
  omega

/-- C1: for every state, the first registration of a username with a valid
body returns success, "Registration successful" and a non-null token; a
second registration of the same username fails with "Username already
exists" and a null token, changes nothing, and leaves the credential entry
equal to the hash stored by the first call. -/
theorem register_duplicate_username_spec (st : AuthState)
    (req req2 : RegisterRequest)
    (hvalid : validRegister req) (hvalid2 : validRegister req2)
    (hsame : req2.username = req.username)
    (hfirst : credExists st req.username = false) :
    (register st req).1.success = true ∧
    (register st req).1.message = "Registration successful" ∧
    (register st req).1.token ≠ none ∧
    (register (register st req).2 req2).1.success = false ∧
    (register (register st req).2 req2).1.message = "Username already exists" ∧
    (register (register st req).2 req2).1.token = none ∧
    (register (register st req).2 req2).2 = (register st req).2 ∧
    credGet (register (register st req).2 req2).2 req.username =
      some (hash st.nextSalt req.password) := by
  have h1 := register_new_eq st req hfirst
  have hget1 : credGet (register st req).2 req.username =
      some (hash st.nextSalt req.password) := by
    rw [h1]
    show lookupStr (st.user_credentials ++
      [(req.username, hash st.nextSalt req.password)]) req.username = _
    rw [lookupStr_append_none _ _ _
      (lookup_none_of_credExists_false st req.username hfirst)]
    simp [lookupStr]
  have hex1 : credExists (register st req).2 req2.username = true := by
    rw [hsame]
    show (credGet (register st req).2 req.username).isSome = true
    rw [hget1]
    rfl
  have h2 := register_exists_eq (register st req).2 req2 hex1
  refine ⟨by rw [h1], by rw [h1], by rw [h1]; simp, by rw [h2], by rw [h2],
    by rw [h2], by rw [h2], ?_⟩
  rw [h2]
  exact hget1

/-- Witness for C1: registering "alice" twice from the empty state. -/
theorem register_duplicate_username_spec_witness :
    validRegister ⟨"alice", "alice@example.com", "password123"⟩ ∧
    validRegister ⟨"alice", "other@example.com", "different456"⟩ ∧
    (RegisterRequest.mk "alice" "other@example.com" "different456").username =
      (RegisterRequest.mk "alice" "alice@example.com" "password123").username ∧
    credExists initState "alice" = false ∧
    credGet (register (register initState
        ⟨"alice", "alice@example.com", "password123"⟩).2
        ⟨"alice", "other@example.com", "different456"⟩).2 "alice" =
      some (hash initState.nextSalt "password123") :=
  ⟨⟨by decide, by decide, by decide, by decide⟩,
   ⟨by decide, by decide, by decide, by decide⟩, rfl, by decide,
   (register_duplicate_username_spec initState
     ⟨"alice", "alice@example.com", "password123"⟩
     ⟨"alice", "other@example.com", "different456"⟩
     ⟨by decide, by decide, by decide, by decide⟩
     ⟨by decide, by decide, by decide, by decide⟩ rfl (by decide)).2.2.2.2.2.2.2⟩

/-- C2: for every state and well-formed request, an unknown username and a
failing password verification produce the identical failure response:
success=false, message "Invalid username or password", token=null, state
unchanged. -/
theorem login_failure_uniform_spec (st : AuthState) (req : LoginRequest)
    (hvalid : validLogin req)
    (hfail : credGet st req.username = none ∨
      ∃ stored, credGet st req.username = some stored ∧
        verify req.password stored = false) :
    login st req =
      ({ success := false, message := "Invalid username or password",
         username := req.username, token := none }, st) := by
  rcases hfail with h | ⟨stored, hs, hv⟩
  · exact login_none_eq st req h
  · exact login_fail_eq st req stored hs hv

/-- Witness for C2: login with an unknown username against a state holding
one registered user. -/
theorem login_failure_uniform_spec_witness :
    validLogin ⟨"nouser", "password123"⟩ ∧
    credGet (register initState ⟨"bob", "bob@example.com", "password123"⟩).2
      "nouser" = none ∧
    login (register initState ⟨"bob", "bob@example.com", "password123"⟩).2
        ⟨"nouser", "password123"⟩ =
      ({ success := false, message := "Invalid username or password",
         username := "nouser", token := none },
       (register initState ⟨"bob", "bob@example.com", "password123"⟩).2) :=
  ⟨⟨by decide, by decide, by decide, by decide⟩, by decide,
   login_failure_uniform_spec
     (register initState ⟨"bob", "bob@example.com", "password123"⟩).2
     ⟨"nouser", "password123"⟩
     ⟨by decide, by decide, by decide, by decide⟩ (Or.inl (by decide))⟩

/-- C3: the authorization ladder of GET /users — no or non-bearer header
gives 401, an unresolvable token gives 401, a non-admin identity gives 403,
and an admin token gives 200 with every registered username (including
"admin" in any reachable state), each list element being a bare username
and no password hash appearing in the response. -/
theorem users_authorization_ladder_spec (st : AuthState) (header : Option String) :
    (extractBearer header = none →
      getUsers st header = .unauthenticated "Not authenticated" ∧
      (getUsers st header).status = 401) ∧
    (∀ t, extractBearer header = some t → sessionResolve st t = none →
      getUsers st header = .invalidToken "Invalid or expired token" ∧
      (getUsers st header).status = 401) ∧
    (∀ t u, extractBearer header = some t → sessionResolve st t = some u →
      u ≠ "admin" →
      getUsers st header = .forbidden "Forbidden: Admin access required" ∧
      (getUsers st header).status = 403) ∧
    (∀ t, extractBearer header = some t → sessionResolve st t = some "admin" →
      getUsers st header =
        .ok (st.user_credentials.map Prod.fst)
          (st.user_credentials.map Prod.fst).length ∧
      (getUsers st header).status = 200 ∧
      (∀ x ∈ st.user_credentials.map Prod.fst, ∃ q ∈ st.user_credentials, x = q.1) ∧
      (Reachable st → "admin" ∈ st.user_credentials.map Prod.fst)) := by
  refine ⟨?_, ?_, ?_, ?_⟩
  · intro h
    rw [getUsers_no_header st header h]
    exact ⟨rfl, rfl⟩
  · intro t ht hr
    rw [getUsers_bad_token st header t ht hr]
    exact ⟨rfl, rfl⟩
  · intro t u ht hr hu
    rw [getUsers_non_admin st header t u ht hr hu]
    exact ⟨rfl, rfl⟩
  · intro t ht hr
    rw [getUsers_admin st header t ht hr]
    refine ⟨rfl, rfl, ?_, ?_⟩
    · intro x hx
      obtain ⟨q, hq, rfl⟩ := List.mem_map.mp hx
      exact ⟨q, hq, rfl⟩
    · intro hreach
      have hinv := storeInv_reachable st hreach
      have hmem := lookupStr_mem st.active_sessions t "admin" hr
      have hex := hinv.1 (t, "admin") hmem
      obtain ⟨v, hv⟩ := Option.isSome_iff_exists.mp hex
      exact lookupStr_mem_keys _ _ _ hv

/-- Witness for C3: the admin branch at a concrete reachable state. -/
theorem users_authorization_ladder_spec_witness :
    extractBearer (some ("Bearer " ++ mkToken 0)) = some (mkToken 0) ∧
    sessionResolve
      (runFrom initState [Op.opRegister ⟨"admin", "admin@example.com", "admin123"⟩])
      (mkToken 0) = some "admin" ∧
    Reachable
      (runFrom initState [Op.opRegister ⟨"admin", "admin@example.com", "admin123"⟩]) ∧
    getUsers
        (runFrom initState [Op.opRegister ⟨"admin", "admin@example.com", "admin123"⟩])
        (some ("Bearer " ++ mkToken 0)) =
      .ok ((runFrom initState
            [Op.opRegister ⟨"admin", "admin@example.com", "admin123"⟩]).user_credentials.map
          Prod.fst)
        ((runFrom initState
            [Op.opRegister ⟨"admin", "admin@example.com", "admin123"⟩]).user_credentials.map
          Prod.fst).length ∧
    "admin" ∈ (runFrom initState
        [Op.opRegister ⟨"admin", "admin@example.com", "admin123"⟩]).user_credentials.map
      Prod.fst := by
  have hb : extractBearer (some ("Bearer " ++ mkToken 0)) = some (mkToken 0) := by decide
  have hr : sessionResolve
      (runFrom initState [Op.opRegister ⟨"admin", "admin@example.com", "admin123"⟩])
      (mkToken 0) = some "admin" := by decide
  have hreach : Reachable
      (runFrom initState [Op.opRegister ⟨"admin", "admin@example.com", "admin123"⟩]) :=
    ⟨[Op.opRegister ⟨"admin", "admin@example.com", "admin123"⟩], rfl⟩
  have h4 := (users_authorization_ladder_spec
    (runFrom initState [Op.opRegister ⟨"admin", "admin@example.com", "admin123"⟩])
    (some ("Bearer " ++ mkToken 0))).2.2.2 (mkToken 0) hb hr
  exact ⟨hb, hr, hreach, h4.1, h4.2.2.2 hreach⟩

end Auth

namespace Auth

/-- C4: logout always returns the message "Logged out successfully"; the
credential store is never touched; with no bearer credential or an
unrecognized token the whole state is unchanged; with a presented token the
session binding is removed, the token no longer resolves, and a subsequent
GET /users with it yields 401. -/
theorem logout_total_effect_spec (st : AuthState) (header : Option String) :
    (logout st header).1 = "Logged out successfully" ∧
    (logout st header).2.user_credentials = st.user_credentials ∧
    (extractBearer header = none → (logout st header).2 = st) ∧
    (∀ t, extractBearer header = some t → sessionResolve st t = none →
      (logout st header).2 = st) ∧
    (∀ t, extractBearer header = some t →
      (logout st header).2.active_sessions = revokeToken st.active_sessions t ∧
      sessionResolve (logout st header).2 t = none ∧
      getUsers (logout st header).2 (some ("Bearer " ++ t)) =
        .invalidToken "Invalid or expired token" ∧
      (getUsers (logout st header).2 (some ("Bearer " ++ t))).status = 401) := by
  refine ⟨?_, ?_, ?_, ?_, ?_⟩
  · cases hb : extractBearer header with
    | none => rw [logout_none_eq st header hb]
    | some t => rw [logout_some_eq st header t hb]
  · cases hb : extractBearer header with
    | none => rw [logout_none_eq st header hb]
    | some t => rw [logout_some_eq st header t hb]
  · intro hb
    rw [logout_none_eq st header hb]
  · intro t hb hr
    rw [logout_some_eq st header t hb]
    rw [revokeToken_not_mem _ _ hr]
  · intro t hb
    rw [logout_some_eq st header t hb]
    have hres : sessionResolve
        (AuthState.mk st.user_credentials (revokeToken st.active_sessions t)
          st.nextSalt st.nextToken) t = none :=
      revokeToken_lookup_self _ _
    have hgu := getUsers_bad_token _ _ t (extractBearer_bearer t) hres
    refine ⟨rfl, ?_, ?_, ?_⟩
    · exact revokeToken_lookup_self _ _
    · exact hgu
    · rw [hgu]
      rfl

/-- Witness for C4: logging out the session created by registering "bob". -/
theorem logout_total_effect_spec_witness :
    extractBearer (some ("Bearer " ++ mkToken 0)) = some (mkToken 0) ∧
    (logout (register initState ⟨"bob", "bob@example.com", "password123"⟩).2
      (some ("Bearer " ++ mkToken 0))).1 = "Logged out successfully" ∧
    sessionResolve
      (logout (register initState ⟨"bob", "bob@example.com", "password123"⟩).2
        (some ("Bearer " ++ mkToken 0))).2 (mkToken 0) = none ∧
    (getUsers
      (logout (register initState ⟨"bob", "bob@example.com", "password123"⟩).2
        (some ("Bearer " ++ mkToken 0))).2
      (some ("Bearer " ++ mkToken 0))).status = 401 := by
  have hb : extractBearer (some ("Bearer " ++ mkToken 0)) = some (mkToken 0) := by decide
  have h := logout_total_effect_spec
    (register initState ⟨"bob", "bob@example.com", "password123"⟩).2
    (some ("Bearer " ++ mkToken 0))
  have h5 := h.2.2.2.2 (mkToken 0) hb
  exact ⟨hb, h.1, h5.2.1, h5.2.2.2⟩

lemma lookupStr_cons_self (k v : String) (rest : List (String × String)) :
    lookupStr ((k, v) :: rest) k = some v := by
  simp [lookupStr]

lemma lookupStr_cons_ne (k v key : String) (rest : List (String × String))
    (h : k ≠ key) : lookupStr ((k, v) :: rest) key = lookupStr rest key := by
  simp [lookupStr, h]

/-- C5: login with the correct password returns a fresh 36-character token
with exactly 4 hyphens; two successive successful logins return distinct
tokens, and afterwards each token independently resolves to the user. -/
theorem token_shape_session_independence_spec (st : AuthState) (u p stored : String)
    (hs : credGet st u = some stored) (hv : verify p stored = true) :
    (login st ⟨u, p⟩).1.success = true ∧
    (login st ⟨u, p⟩).1.token = some (mkToken st.nextToken) ∧
    (mkToken st.nextToken).length = 36 ∧
    countHyphens (mkToken st.nextToken) = 4 ∧
    (login (login st ⟨u, p⟩).2 ⟨u, p⟩).1.token = some (mkToken (st.nextToken + 1)) ∧
    (mkToken (st.nextToken + 1)).length = 36 ∧
    countHyphens (mkToken (st.nextToken + 1)) = 4 ∧
    mkToken st.nextToken ≠ mkToken (st.nextToken + 1) ∧
    sessionResolve (login (login st ⟨u, p⟩).2 ⟨u, p⟩).2 (mkToken st.nextToken) =
      some u ∧
    sessionResolve (login (login st ⟨u, p⟩).2 ⟨u, p⟩).2 (mkToken (st.nextToken + 1)) =
      some u := by
  have h1 := login_success_eq st ⟨u, p⟩ stored hs hv
  have hs2 : credGet (login st ⟨u, p⟩).2 u = some stored := by
    rw [h1]
    exact hs
  have h2 := login_success_eq (login st ⟨u, p⟩).2 ⟨u, p⟩ stored hs2 hv
  refine ⟨by rw [h1], by rw [h1], mkToken_length _, mkToken_hyphens _, ?_,
    mkToken_length _, mkToken_hyphens _, mkToken_succ_ne _, ?_, ?_⟩
  · rw [h2, h1]
  · rw [h2, h1]
    show lookupStr ((mkToken (st.nextToken + 1), u) ::
      (mkToken st.nextToken, u) :: st.active_sessions) (mkToken st.nextToken) = some u
    rw [lookupStr_cons_ne _ _ _ _ (Ne.symm (mkToken_succ_ne st.nextToken)),
      lookupStr_cons_self]
  · rw [h2, h1]
    show lookupStr ((mkToken (st.nextToken + 1), u) ::
      (mkToken st.nextToken, u) :: st.active_sessions) (mkToken (st.nextToken + 1)) =
      some u
    rw [lookupStr_cons_self]

/-- Witness for C5: two logins of "bob" after registration. -/
theorem token_shape_session_independence_spec_witness :
    credGet (register initState ⟨"bob", "bob@example.com", "password123"⟩).2 "bob" =
      some (hash 0 "password123") ∧
    verify "password123" (hash 0 "password123") = true ∧
    sessionResolve
      (login (login (register initState
          ⟨"bob", "bob@example.com", "password123"⟩).2 ⟨"bob", "password123"⟩).2
        ⟨"bob", "password123"⟩).2
      (mkToken ((register initState
        ⟨"bob", "bob@example.com", "password123"⟩).2.nextToken + 1)) = some "bob" :=
  ⟨by decide, by decide,
   (token_shape_session_independence_spec
     (register initState ⟨"bob", "bob@example.com", "password123"⟩).2
     "bob" "password123" (hash 0 "password123")
     (by decide) (by decide)).2.2.2.2.2.2.2.2.2⟩

end Auth

namespace Auth

/-- C6: in every reachable state the stored credential value of a username
differs from the plaintext password supplied at that user's registration;
moreover no response carries plaintext-password information: the register
response is identical for any two passwords, the login response depends on
the password only through the verification outcome, and the logout message
is a constant. -/
theorem plaintext_secrecy_spec (ops : List Op) (u p hsh : String)
    (hreg : regPwFrom initState ops u = some p)
    (hget : credGet (runFrom initState ops) u = some hsh) :
    hsh ≠ p ∧
    (∀ st e p1 p2, (register st ⟨u, e, p1⟩).1 = (register st ⟨u, e, p2⟩).1) ∧
    (∀ st stored p1 p2, credGet st u = some stored →
      verify p1 stored = verify p2 stored →
      (login st ⟨u, p1⟩).1 = (login st ⟨u, p2⟩).1) ∧
    (∀ st header, (logout st header).1 = "Logged out successfully") := by
  refine ⟨?_, ?_, ?_, ?_⟩
  · obtain ⟨s, hgs⟩ := regPw_hash ops initState u p hreg
    rw [hget] at hgs
    rw [Option.some.inj hgs]
    exact hash_ne_plaintext s p
  · intro st e p1 p2
    cases hcr : credExists st u with
    | true =>
      rw [register_exists_eq st ⟨u, e, p1⟩ hcr, register_exists_eq st ⟨u, e, p2⟩ hcr]
    | false =>
      rw [register_new_eq st ⟨u, e, p1⟩ hcr, register_new_eq st ⟨u, e, p2⟩ hcr]
  · intro st stored p1 p2 hs hv
    cases hv1 : verify p1 stored with
    | true =>
      rw [login_success_eq st ⟨u, p1⟩ stored hs hv1,
        login_success_eq st ⟨u, p2⟩ stored hs (by rw [← hv, hv1])]
    | false =>
      rw [login_fail_eq st ⟨u, p1⟩ stored hs hv1,
        login_fail_eq st ⟨u, p2⟩ stored hs (by rw [← hv, hv1])]
  · intro st header
    cases hb : extractBearer header with
    | none => rw [logout_none_eq st header hb]
    | some t => rw [logout_some_eq st header t hb]

/-- Witness for C6: the trace registering "bob" with "password123". -/
theorem plaintext_secrecy_spec_witness :
    regPwFrom initState [Op.opRegister ⟨"bob", "bob@example.com", "password123"⟩]
      "bob" = some "password123" ∧
    credGet (runFrom initState
        [Op.opRegister ⟨"bob", "bob@example.com", "password123"⟩]) "bob" =
      some (hash 0 "password123") ∧
    hash 0 "password123" ≠ "password123" :=
  ⟨by decide, by decide,
   (plaintext_secrecy_spec [Op.opRegister ⟨"bob", "bob@example.com", "password123"⟩]
     "bob" "password123" (hash 0 "password123") (by decide) (by decide)).1⟩

/-- C7: hashing the identical password at two successive salt draws yields
two different stored values, each of which verifies against the password;
`verify` is a total Boolean function that returns false on any string that
is not a well-formed hash. -/
theorem hasher_salting_roundtrip_spec (salt : Nat) (p : String) :
    hash salt p ≠ hash (salt + 1) p ∧
    verify p (hash salt p) = true ∧
    verify p (hash (salt + 1) p) = true ∧
    (∀ stored q, (∀ s pw, stored ≠ hash s pw) → verify q stored = false) :=
  ⟨hash_succ_ne salt p, verify_hash_self salt p, verify_hash_self (salt + 1) p,
   fun stored q h => verify_not_hash q stored h⟩

/-- Witness for C7 at a concrete password and a concrete malformed hash. -/
theorem hasher_salting_roundtrip_spec_witness :
    hash 0 "password123" ≠ hash 1 "password123" ∧
    verify "password123" (hash 0 "password123") = true ∧
    verify "password123" (hash 1 "password123") = true ∧
    verify "anything" "garbage" = false := by
  have h := hasher_salting_roundtrip_spec 0 "password123"
  refine ⟨h.1, h.2.1, h.2.2.1, ?_⟩
  exact h.2.2.2 "garbage" "anything"
    (not_hash_of_short "garbage" (by decide))

/-- C8: in every reachable state, every token held in the session store
resolves to a username present in the credential store (entries are never
deleted, so present means present-or-once-present), and the credential
store has at most one entry per username. -/
theorem store_pair_invariants_spec (st : AuthState) (hreach : Reachable st) :
    (∀ t u, sessionResolve st t = some u → credExists st u = true) ∧
    (st.user_credentials.map Prod.fst).Nodup := by
  have hinv := storeInv_reachable st hreach
  refine ⟨?_, hinv.2⟩
  intro t u hr
  exact hinv.1 (t, u) (lookupStr_mem _ _ _ hr)

/-- Witness for C8: a state reached by a register, a login and a logout. -/
theorem store_pair_invariants_spec_witness :
    Reachable (runFrom initState
      [Op.opRegister ⟨"bob", "bob@example.com", "password123"⟩,
       Op.opLogin ⟨"bob", "password123"⟩,
       Op.opLogout (some ("Bearer " ++ mkToken 0))]) ∧
    ((∀ t u, sessionResolve (runFrom initState
        [Op.opRegister ⟨"bob", "bob@example.com", "password123"⟩,
         Op.opLogin ⟨"bob", "password123"⟩,
         Op.opLogout (some ("Bearer " ++ mkToken 0))]) t = some u →
      credExists (runFrom initState
        [Op.opRegister ⟨"bob", "bob@example.com", "password123"⟩,
         Op.opLogin ⟨"bob", "password123"⟩,
         Op.opLogout (some ("Bearer " ++ mkToken 0))]) u = true) ∧
    ((runFrom initState
        [Op.opRegister ⟨"bob", "bob@example.com", "password123"⟩,
         Op.opLogin ⟨"bob", "password123"⟩,
         Op.opLogout (some ("Bearer " ++ mkToken 0))]).user_credentials.map
      Prod.fst).Nodup) :=
  ⟨⟨[Op.opRegister ⟨"bob", "bob@example.com", "password123"⟩,
     Op.opLogin ⟨"bob", "password123"⟩,
     Op.opLogout (some ("Bearer " ++ mkToken 0))], rfl⟩,
   store_pair_invariants_spec _
     ⟨[Op.opRegister ⟨"bob", "bob@example.com", "password123"⟩,
       Op.opLogin ⟨"bob", "password123"⟩,
       Op.opLogout (some ("Bearer " ++ mkToken 0))], rfl⟩⟩

end Auth
